import Mathlib

/-!
# Semantic Verification Engine — shallow embedding and verification

A shallow embedding, in Lean 4, of the decision core of the
`semantic-verification-engine` repository (TypeScript), together with
theorems settling the specification's claims about it.

The embedding follows the source files:

* `src/tools/verification.ts` — `verifyMarketPair`'s response parsing
  (`result.text.match(/\{[\s\S]*\}/)` followed by `JSON.parse`),
  `generateVerificationReport`'s spread-based recommendation adjustment,
  `quickSimilarityScore` (token Jaccard).
* `src/tools/embedding-cache.ts` — the in-memory embedding cache
  (`getEmbedding`, hit/miss/generated counters), and an interleaving model
  of two concurrent `getEmbedding` calls.
* `src/tools/market-apis.ts` — `searchKalshiMarkets` with its silent
  mock-data fallback.
* the embedding verification module (`smartVerifyPair`) — the
  embedding-similarity short-circuit around the LLM call.
* `src/agent.ts` — `runVerificationAgent`'s `arbitrageOpportunity`
  derivation and `getVerifiedArbitrageOpportunities`' filter/sort.

Numbers that are JavaScript `number`s in the source are modelled as `ℚ`
(the concrete values involved are all exactly representable; no claim
here depends on float rounding).  JavaScript `undefined` for an optional
value or an absent object field is modelled as `Option.none`.
-/

namespace SemVer

/- ═══════════════ Character and string utilities ═══════════════ -/

/-- JavaScript `\s` (whitespace class), restricted to the ASCII whitespace
characters that can occur in the inputs considered here. -/
def isWsChar (c : Char) : Bool :=
  c = ' ' || c = '\t' || c = '\n' || c = '\r'

/-- JavaScript `\w` (word class): `[A-Za-z0-9_]`. -/
def isWordChar (c : Char) : Bool :=
  ('a' ≤ c && c ≤ 'z') || ('A' ≤ c && c ≤ 'Z') || ('0' ≤ c && c ≤ '9') || c = '_'

/-- `s.toLowerCase()` on the character level (ASCII). -/
def lowerChar (c : Char) : Char :=
  if 'A' ≤ c && c ≤ 'Z' then Char.ofNat (c.toNat + 32) else c

def lowerStr (s : String) : String :=
  ⟨s.data.map lowerChar⟩

/-- `needle` is a prefix of `hay` (character lists). -/
def isPrefixL : List Char → List Char → Bool
  | [], _ => true
  | _ :: _, [] => false
  | n :: ns, h :: hs => n = h && isPrefixL ns hs

/-- JavaScript `hay.includes(needle)` (substring containment). -/
def containsL : List Char → List Char → Bool
  | [], needle => isPrefixL needle []
  | hay@(_ :: t), needle => isPrefixL needle hay || containsL t needle

/-- `hay.toLowerCase().includes(query)` where `query` is already lowercased. -/
def containsLower (hay query : String) : Bool :=
  containsL (lowerStr hay).data query.data

/- ═══════════════ JSON model (`JSON.parse`) ═══════════════ -/

/-- JSON values, as produced by JavaScript's `JSON.parse`.  Numbers are
modelled as `ℚ` (every decimal literal is exactly representable). -/
inductive Json where
  | null : Json
  | bool (b : Bool) : Json
  | num (q : ℚ) : Json
  | str (s : String) : Json
  | arr (elems : List Json) : Json
  | obj (fields : List (String × Json)) : Json
deriving Repr

/-- Assoc-list lookup for JSON object fields. -/
def lookupField : List (String × Json) → String → Option Json
  | [], _ => none
  | (k', v) :: rest, k => if k' = k then some v else lookupField rest k

/-- Field lookup on a parsed JSON value (`undefined`, i.e. `none`, when the
value is not an object or the key is absent). -/
def Json.lookup : Json → String → Option Json
  | .obj fields, k => lookupField fields k
  | _, _ => none

/-- `v.isMatch === true`-style access: the value at a key when it is a
boolean. -/
def Json.boolField (j : Json) (k : String) : Option Bool :=
  match j.lookup k with
  | some (.bool b) => some b
  | _ => none

/-- The value at a key when it is a string. -/
def Json.strField (j : Json) (k : String) : Option String :=
  match j.lookup k with
  | some (.str s) => some s
  | _ => none

def skipWs (cs : List Char) : List Char :=
  cs.dropWhile isWsChar

def isDigitChar (c : Char) : Bool :=
  '0' ≤ c && c ≤ '9'

def digitVal (c : Char) : ℕ := c.toNat - 48

def digitsToNat (ds : List Char) : ℕ :=
  ds.foldl (fun n c => 10 * n + digitVal c) 0

/-- Parse the body of a JSON string literal (after the opening quote):
returns the characters and the remainder after the closing quote.
Escapes: the JSON escapes without `\uXXXX` (not needed by any input
considered here). -/
def parseStrChars : List Char → Option (List Char × List Char)
  | [] => none
  | '"' :: rest => some ([], rest)
  | '\\' :: e :: rest => do
    let c ← match e with
      | '"' => some '"'
      | '\\' => some '\\'
      | '/' => some '/'
      | 'n' => some '\n'
      | 't' => some '\t'
      | 'r' => some '\r'
      | 'b' => some (Char.ofNat 8)
      | 'f' => some (Char.ofNat 12)
      | _ => none
    let (s, r) ← parseStrChars rest
    some (c :: s, r)
  | '\\' :: [] => none
  | c :: rest => do
    let (s, r) ← parseStrChars rest
    some (c :: s, r)

/-- The exponent part of a JSON number (after `e`/`E`): the scale it denotes
and the remainder, or `none` when no digits follow. -/
def parseNumExp (r : List Char) : Option ℚ × List Char :=
  let (esign, r1) : Bool × List Char := match r with
    | '+' :: r' => (false, r')
    | '-' :: r' => (true, r')
    | _ => (false, r)
  let eds := r1.takeWhile isDigitChar
  if eds = [] then (none, r1) else
  let e := digitsToNat eds
  (some (if esign then ((10 : ℚ) ^ e)⁻¹ else ((10 : ℚ) ^ e)), r1.dropWhile isDigitChar)

/-- Apply sign and optional exponent to the magnitude of a JSON number. -/
def parseNumFinish (neg : Bool) (mag : ℚ) (cs : List Char) : Option (ℚ × List Char) :=
  let (expRes, csE) : Option ℚ × List Char := match cs with
    | 'e' :: r => parseNumExp r
    | 'E' :: r => parseNumExp r
    | _ => (some 1, cs)
  match expRes with
  | none => none
  | some scale => some (if neg then -(mag * scale) else mag * scale, csE)

/-- Parse a JSON number: `-? digits (. digits)? ((e|E) (+|-)? digits)?`.
(The leading-zero restriction of the JSON grammar is not modelled; no
input considered here has a leading zero.) -/
def parseNum (cs : List Char) : Option (ℚ × List Char) :=
  let (neg, cs1) := match cs with
    | '-' :: r => (true, r)
    | _ => (false, cs)
  let intDs := cs1.takeWhile isDigitChar
  let cs2 := cs1.dropWhile isDigitChar
  if intDs = [] then none else
  let intPart : ℚ := (digitsToNat intDs : ℚ)
  match cs2 with
  | '.' :: r =>
    let fds := r.takeWhile isDigitChar
    if fds = [] then none else
    let frac : ℚ := (digitsToNat fds : ℚ) / ((10 : ℚ) ^ fds.length)
    parseNumFinish neg (intPart + frac) (r.dropWhile isDigitChar)
  | _ => parseNumFinish neg intPart cs2

/-- Parsing modes of the recursive-descent JSON parser: a value, the fields
of an object (after `{`), or the elements of an array (after `[`).  A single
fueled function keeps the recursion structural, so concrete inputs evaluate
by kernel reduction. -/
inductive PMode where
  | value : PMode
  | fields : PMode
  | elems : PMode

/-- Results of `parseP`, by mode. -/
inductive PRes where
  | val (j : Json) (rest : List Char) : PRes
  | flds (fs : List (String × Json)) (rest : List Char) : PRes
  | els (xs : List Json) (rest : List Char) : PRes

/-- Recursive-descent parser for the JSON grammar (modulo the documented
number/string simplifications), fueled for structural recursion. -/
def parseP : ℕ → PMode → List Char → Option PRes
  | 0, _, _ => none
  | Nat.succ n, .value, cs =>
    match skipWs cs with
    | 'n' :: 'u' :: 'l' :: 'l' :: rest => some (.val .null rest)
    | 't' :: 'r' :: 'u' :: 'e' :: rest => some (.val (.bool true) rest)
    | 'f' :: 'a' :: 'l' :: 's' :: 'e' :: rest => some (.val (.bool false) rest)
    | '"' :: rest => do
      let (s, r) ← parseStrChars rest
      some (.val (.str ⟨s⟩) r)
    | '{' :: rest => do
      let r ← parseP n .fields rest
      match r with
      | .flds fs rest' => some (.val (.obj fs) rest')
      | _ => none
    | '[' :: rest => do
      let r ← parseP n .elems rest
      match r with
      | .els xs rest' => some (.val (.arr xs) rest')
      | _ => none
    | cs' => do
      let (q, r) ← parseNum cs'
      some (.val (.num q) r)
  | Nat.succ n, .fields, cs =>
    match skipWs cs with
    | '}' :: rest => some (.flds [] rest)
    | '"' :: rest => do
      let (k, r1) ← parseStrChars rest
      match skipWs r1 with
      | ':' :: r2 => do
        let rv ← parseP n .value r2
        match rv with
        | .val v r3 =>
          match skipWs r3 with
          | ',' :: r4 => do
            let rf ← parseP n .fields r4
            match rf with
            | .flds fs r5 => some (.flds ((⟨k⟩, v) :: fs) r5)
            | _ => none
          | '}' :: r4 => some (.flds [(⟨k⟩, v)] r4)
          | _ => none
        | _ => none
      | _ => none
    | _ => none
  | Nat.succ n, .elems, cs =>
    match skipWs cs with
    | ']' :: rest => some (.els [] rest)
    | cs' => do
      let rv ← parseP n .value cs'
      match rv with
      | .val v r1 =>
        match skipWs r1 with
        | ',' :: r2 => do
          let re ← parseP n .elems r2
          match re with
          | .els xs r3 => some (.els (v :: xs) r3)
          | _ => none
        | ']' :: r2 => some (.els [v] r2)
        | _ => none
      | _ => none

/-- `JSON.parse(s)`: one JSON value, surrounded by nothing but whitespace.
Anything else throws in JavaScript; here, `none`. -/
def jsonParse (s : String) : Option Json :=
  match parseP (s.data.length + 1) .value s.data with
  | some (.val v rest) => if skipWs rest = [] then some v else none
  | _ => none

/- ═══════════════ verifyMarketPair: response parsing ═══════════════
`src/tools/verification.ts`, lines 177–201. -/

/-- `result.text.match(/\{[\s\S]*\}/)`: the JavaScript regex engine starts
the match at the first `{` and the greedy `[\s\S]*` extends it to the last
`}` of the whole text (a match exists iff some `}` comes after the first
`{`).  This is a span match, not balanced-brace matching. -/
def extractJsonSpan (s : String) : Option String :=
  if (((s.data.dropWhile (fun c => !(c == '{'))).reverse).dropWhile
      (fun c => !(c == '}'))).isEmpty then none
  else some ⟨(((s.data.dropWhile (fun c => !(c == '{'))).reverse).dropWhile
      (fun c => !(c == '}'))).reverse⟩

/-- Outcome of `verifyMarketPair.execute` after the LLM text came back:
either of the two `success: false` shapes, or `success: true` carrying the
parsed judgment object — which the source returns without any validation. -/
inductive VerifyParseOutcome where
  /-- `{success: false, error: 'Failed to parse LLM response', rawResponse}` -/
  | parseFailure (rawResponse : String) : VerifyParseOutcome
  /-- `JSON.parse` threw; caught by the outer `catch`:
  `{success: false, error: String(error)}` -/
  | parseError : VerifyParseOutcome
  /-- `{success: true, verification, ...}` -/
  | success (verification : Json) : VerifyParseOutcome

/-- Lines 177–195 of `src/tools/verification.ts`: extract the regex span,
`JSON.parse` it, and return it as the verification result.  No field,
enum, range or cross-field validation happens between `JSON.parse` and the
`success: true` return. -/
def verifyMarketPairParse (responseText : String) : VerifyParseOutcome :=
  match extractJsonSpan responseText with
  | none => .parseFailure responseText
  | some jsonText =>
    match jsonParse jsonText with
    | none => .parseError
    | some v => .success v

/- ═══════════════ Shared enums and judgment model ═══════════════
`src/types.ts`. -/

inductive RiskLevel where
  | LOW | MEDIUM | HIGH | CRITICAL
deriving DecidableEq, Repr

inductive Recommendation where
  | SAFE_TO_TRADE | PROCEED_WITH_CAUTION | AVOID | MANUAL_REVIEW
deriving DecidableEq, Repr

/-- A misalignment record as `generateVerificationReport` receives it
(zod schema at `src/tools/verification.ts`, lines 316–323). -/
structure MisalignmentM where
  type : String
  severity : String
  description : String
  kalshiValue : Option String := none
  polymarketValue : Option String := none
  potentialImpact : String
deriving DecidableEq, Repr

/-- The `verification` parameter of `generateVerificationReport`
(zod schema, lines 312–327: enums are validated by zod there). -/
structure JudgmentForReport where
  isMatch : Bool
  matchConfidence : ℚ
  semanticSimilarity : ℚ
  misalignments : List MisalignmentM
  riskLevel : RiskLevel
  recommendation : Recommendation
  reasoning : String
deriving DecidableEq, Repr

/- ═══════════════ generateVerificationReport: spread adjustment ═══════════
`src/tools/verification.ts`, lines 336–340:
    let adjustedRecommendation = verification.recommendation;
    if (priceSpread && priceSpread < 3 && verification.misalignments.length > 0) {
      adjustedRecommendation = 'AVOID';
    }
`priceSpread` is `number | undefined`; the bare `priceSpread &&` test is
JavaScript truthiness, so `undefined` and `0` both skip the downgrade. -/

def adjustedRecommendation (verification : JudgmentForReport) (priceSpread : Option ℚ) :
    Recommendation :=
  match priceSpread with
  | none => verification.recommendation
  | some s =>
    if s ≠ 0 ∧ s < 3 ∧ 0 < verification.misalignments.length then .AVOID
    else verification.recommendation

/-- A sample misalignment for concrete instances. -/
def sampleMisalignment : MisalignmentM :=
  { type := "RESOLUTION_DATE", severity := "LOW",
    description := "timezone differs", potentialImpact := "minor" }

/-- A judgment with `recommendation = SAFE_TO_TRADE` and one misalignment. -/
def sampleJudgmentSafeOneMis : JudgmentForReport :=
  { isMatch := true, matchConfidence := 9/10, semanticSimilarity := 9/10,
    misalignments := [sampleMisalignment], riskLevel := .LOW,
    recommendation := .SAFE_TO_TRADE, reasoning := "equivalent" }

/- ═══════════════ Agent: matched pairs and opportunities ═══════════════
`src/agent.ts`. -/

/-- JavaScript `x || d` for an optional number: `undefined` and `0` are
falsy, so both fall through to the default. -/
def jsOr (x : Option ℚ) (d : ℚ) : ℚ :=
  match x with
  | none => d
  | some v => if v = 0 then d else v

/-- The verification summary stored in a `MatchedPairResult`
(`src/types.ts`; `recommendation` and `riskLevel` are plain strings there). -/
structure PairVerification where
  isMatch : Bool
  matchConfidence : ℚ
  riskLevel : String
  recommendation : String
deriving Repr

/-- A matched pair as `runVerificationAgent` builds it
(`src/agent.ts`, lines 102–126). -/
structure MatchedPairResult where
  kalshiTicker : String
  kalshiQuestion : String
  kalshiPrice : Option ℚ
  polymarketId : String
  polymarketQuestion : String
  polymarketPrice : Option ℚ
  verification : PairVerification
  priceSpread : Option ℚ
  arbitrageOpportunity : Bool
deriving Repr

/-- `src/agent.ts`, lines 98–100:
`Math.abs((kalshiMarket.yesPrice || 0.5) - (polyMarket.outcomes?.[0]?.price || 0.5)) * 100`. -/
def agentPriceSpread (kalshiYesPrice polymarketFirstPrice : Option ℚ) : ℚ :=
  |jsOr kalshiYesPrice (1/2) - jsOr polymarketFirstPrice (1/2)| * 100

/-- `src/agent.ts`, lines 102–126: the pair pushed into `matchedPairs`,
with `priceSpread` and `arbitrageOpportunity` derived on the spot
(line 125: `recommendation === 'SAFE_TO_TRADE' && priceSpread > 3`). -/
def mkMatchedPair (kalshiTicker kalshiQuestion : String) (kalshiYesPrice : Option ℚ)
    (polymarketId polymarketQuestion : String) (polymarketFirstPrice : Option ℚ)
    (verification : PairVerification) : MatchedPairResult :=
  let priceSpread := agentPriceSpread kalshiYesPrice polymarketFirstPrice
  { kalshiTicker := kalshiTicker, kalshiQuestion := kalshiQuestion,
    kalshiPrice := kalshiYesPrice,
    polymarketId := polymarketId, polymarketQuestion := polymarketQuestion,
    polymarketPrice := polymarketFirstPrice,
    verification := verification,
    priceSpread := some priceSpread,
    arbitrageOpportunity :=
      verification.recommendation = "SAFE_TO_TRADE" && priceSpread > 3 }

/-- One entry of `getVerifiedArbitrageOpportunities`' output
(`ArbitrageOpportunity` in `src/types.ts`). -/
structure ArbitrageOpp where
  kalshiTicker : String
  polymarketId : String
  kalshiPrice : ℚ
  polymarketPrice : ℚ
  spread : ℚ
  verified : Bool
  recommendation : String
deriving Repr

/-- The filter of `src/agent.ts`, line 236. -/
def keepOpportunity (p : MatchedPairResult) : Bool :=
  p.verification.recommendation = "SAFE_TO_TRADE" ||
  p.verification.recommendation = "PROCEED_WITH_CAUTION"

/-- The map of `src/agent.ts`, lines 237–245. -/
def toOpportunity (p : MatchedPairResult) : ArbitrageOpp :=
  { kalshiTicker := p.kalshiTicker, polymarketId := p.polymarketId,
    kalshiPrice := jsOr p.kalshiPrice (1/2),
    polymarketPrice := jsOr p.polymarketPrice (1/2),
    spread := jsOr p.priceSpread 0,
    verified := p.verification.isMatch,
    recommendation := p.verification.recommendation }

/-- `src/agent.ts`, lines 235–246: filter to SAFE_TO_TRADE /
PROCEED_WITH_CAUTION, map to `ArbitrageOpp`, sort by descending spread
(`.sort((a, b) => b.spread - a.spread)`; stable, as `Array.prototype.sort`
is). -/
def getVerifiedOpportunities (matchedPairs : List MatchedPairResult) : List ArbitrageOpp :=
  ((matchedPairs.filter keepOpportunity).map toOpportunity).mergeSort
    (fun a b => decide (b.spread ≤ a.spread))

/- ═══════════════ quickSimilarityScore ═══════════════
`src/tools/verification.ts`, lines 488–497. -/

/-- `s.toLowerCase().replace(/[^\w\s]/g, '')`: lower-case, then delete every
character outside the word and whitespace classes. -/
def normalizeChars (s : String) : List Char :=
  (s.data.map lowerChar).filter (fun c => isWordChar c || isWsChar c)

/-- Split a character list into maximal whitespace-free words (accumulator
holds the current word reversed).  `split(/\s+/)` can also produce empty
strings at the edges, but those are removed by the `length > 2` filter
either way, so they are dropped here directly. -/
def wordsAux : List Char → List Char → List (List Char)
  | [], acc => if acc = [] then [] else [acc.reverse]
  | c :: rest, acc =>
    if isWsChar c then
      if acc = [] then wordsAux rest [] else acc.reverse :: wordsAux rest []
    else wordsAux rest (c :: acc)

/-- `normalize(q).split(/\s+/).filter(w => w.length > 2)`. -/
def tokensOf (s : String) : List String :=
  ((wordsAux (normalizeChars s) []).map (fun cs => (⟨cs⟩ : String))).filter
    (fun w => 2 < w.length)

/-- `new Set(...)` over the tokens. -/
def wordSet (s : String) : Finset String :=
  (tokensOf s).toFinset

/-- `quickSimilarityScore`: Jaccard index of the two token sets, `0` when
the union is empty. -/
def quickSimilarityScore (question1 question2 : String) : ℚ :=
  let words1 := wordSet question1
  let words2 := wordSet question2
  let inter := words1 ∩ words2
  let union := words1 ∪ words2
  if 0 < union.card then (inter.card : ℚ) / (union.card : ℚ) else 0

/- ═══════════════ Embedding cache ═══════════════
`src/tools/embedding-cache.ts`. -/

inductive Venue where
  | KALSHI | POLYMARKET
deriving DecidableEq, Repr

/-- `EmbeddingMetadata` (`src/types.ts`): the vector with its provenance.
(`generatedAt` is part of what the collaborator-facing constructor fills
in; it is folded into the metadata the `compute` collaborator returns.) -/
structure EmbeddingMetadata where
  vector : List ℚ
  model : String
  sourceText : String
deriving DecidableEq, Repr

/-- The module-level state of `embedding-cache.ts`: the `embeddingCache`
map (as an assoc list) and the `cacheStats` counters. -/
structure CacheState where
  entries : List (String × EmbeddingMetadata × Venue)
  hits : ℕ
  misses : ℕ
  generated : ℕ
deriving Repr

/-- `embeddingCache.get(marketId)`. -/
def findEntry : List (String × EmbeddingMetadata × Venue) → String →
    Option (EmbeddingMetadata × Venue)
  | [], _ => none
  | (k, v) :: rest, id => if k = id then some v else findEntry rest id

/-- `embeddingCache.set(marketId, entry)`: overwrite semantics. -/
def setEntry (entries : List (String × EmbeddingMetadata × Venue)) (id : String)
    (v : EmbeddingMetadata × Venue) : List (String × EmbeddingMetadata × Venue) :=
  (id, v) :: entries.filter (fun e => !(e.1 = id : Bool))

/-- An empty cache with zeroed counters (the module's initial state, or the
state after `clearCache()`). -/
def emptyCache : CacheState :=
  { entries := [], hits := 0, misses := 0, generated := 0 }

/-- `getEmbedding(marketId, question, venue)` (lines 57–78), with the
embedding collaborator (`generateEmbeddingForText`) passed in as `compute`.
Returns the metadata, the updated module state, and whether the
collaborator was invoked.  On a hit the stored metadata is returned
unchanged — the cached entry is not re-validated against `question`. -/
def getEmbedding (st : CacheState) (marketId question : String) (venue : Venue)
    (compute : String → EmbeddingMetadata) : EmbeddingMetadata × CacheState × Bool :=
  match findEntry st.entries marketId with
  | some (e, _) => (e, { st with hits := st.hits + 1 }, false)
  | none =>
    let e := compute question
    (e, { st with entries := setEntry st.entries marketId (e, venue),
                  misses := st.misses + 1,
                  generated := st.generated + 1 }, true)

/- ═══════════════ Concurrent getEmbedding: interleaving model ═══════════
`getEmbedding` is `async`: the cache check and `cacheStats.misses++` run
synchronously, then `await embed(...)` suspends (the collaborator call is
in flight), then the store and `cacheStats.generated++` run when it
resumes.  There is no in-flight-request map, so another caller entering
between the check and the store also misses.  Each logical caller is a
little state machine with those two steps. -/

inductive CallerPhase where
  /-- about to run the synchronous cache check -/
  | start : CallerPhase
  /-- suspended at `await embed(...)`; the collaborator call is in flight -/
  | awaiting : CallerPhase
  /-- returned -/
  | done (result : EmbeddingMetadata) : CallerPhase
deriving Repr

/-- One scheduler step of a caller running
`getEmbedding(marketId, question, venue)` over the shared cache.
`calls` counts embedding-collaborator compute calls issued. -/
def stepCaller (marketId question : String) (venue : Venue)
    (compute : String → EmbeddingMetadata) :
    CacheState × CallerPhase × ℕ → CacheState × CallerPhase × ℕ
  | (cache, .start, calls) =>
    match findEntry cache.entries marketId with
    | some (e, _) => ({ cache with hits := cache.hits + 1 }, .done e, calls)
    | none =>
      ({ cache with misses := cache.misses + 1 }, .awaiting, calls + 1)
  | (cache, .awaiting, calls) =>
    let e := compute question
    ({ cache with entries := setEntry cache.entries marketId (e, venue),
                  generated := cache.generated + 1 }, .done e, calls)
  | (cache, .done e, calls) => (cache, .done e, calls)

/-- Two concurrent callers `A` and `B`, both asking for the same
`marketId`; a schedule is the interleaving of their steps
(`false` = step `A`, `true` = step `B`). -/
def runSchedule (marketId questionA questionB : String) (venue : Venue)
    (compute : String → EmbeddingMetadata) :
    List Bool → CacheState × CallerPhase × CallerPhase × ℕ →
    CacheState × CallerPhase × CallerPhase × ℕ
  | [], s => s
  | b :: rest, (cache, pa, pb, calls) =>
    if b then
      let (cache', pb', calls') := stepCaller marketId questionB venue compute (cache, pb, calls)
      runSchedule marketId questionA questionB venue compute rest (cache', pa, pb', calls')
    else
      let (cache', pa', calls') := stepCaller marketId questionA venue compute (cache, pa, calls)
      runSchedule marketId questionA questionB venue compute rest (cache', pa', pb, calls')

/- ═══════════════ smartVerifyPair: escalation short-circuit ═══════════════
The embedding verification module, lines 311–390.  The cosine similarity
of the two (cached or freshly computed) embeddings is taken as an input
`embeddingSimilarity`; the branch on it is the code from line 327 on.
`llmResponseText` stands for the judgment collaborator's reply on the
escalation path.  The second component records whether `verifyMarketPair`
(the judgment-collaborator call) was invoked. -/

/-- The object returned on the `embedding_only` short-circuit path
(lines 328–347).  The keys are the source's; the interpolated
percent/reasoning/cost strings are carried as fixed stand-ins (their text
is presentation only).  Note the source object has no `isMatch` key. -/
def smartVerifyShortCircuit (embeddingSimilarity similarityThreshold : ℚ) : Json :=
  .obj [
    ("success", .bool true),
    ("method", .str "embedding_only"),
    ("embeddingSimilarity", .num embeddingSimilarity),
    ("embeddingSimilarityPercent", .str "(percent string)"),
    ("recommendation",
      .str (if embeddingSimilarity < 1/2 then "UNLIKELY_MATCH" else "POSSIBLE_MATCH")),
    ("shouldTrade", .bool false),
    ("reasoning",
      .str (if embeddingSimilarity < similarityThreshold
        then "below threshold - LLM verification skipped"
        else "LLM verification skipped by request")),
    ("costSaved", .str "$0.02"),
    ("cacheInfo", .obj []),
    ("kalshiMarket", .obj []),
    ("polymarketMarket", .obj [])]

/-- `smartVerifyPair.execute` from the point where `embeddingSimilarity`
is known (line 327): short-circuit below the threshold or on `skipLLM`;
otherwise delegate to `verifyMarketPair` on `llmResponseText`. -/
def smartVerifyPair (embeddingSimilarity similarityThreshold : ℚ) (skipLLM : Bool)
    (llmResponseText : String) : Json × Bool :=
  if embeddingSimilarity < similarityThreshold ∨ skipLLM then
    (smartVerifyShortCircuit embeddingSimilarity similarityThreshold, false)
  else
    match verifyMarketPairParse llmResponseText with
    | .success v =>
      (.obj [
        ("success", .bool true),
        ("method", .str "embedding_plus_llm"),
        ("embeddingSimilarity", .num embeddingSimilarity),
        ("verification", v),
        ("shouldTrade", .bool (v.strField "recommendation" = some "SAFE_TO_TRADE"))],
       true)
    | _ =>
      (.obj [
        ("success", .bool false),
        ("method", .str "llm_failed"),
        ("embeddingSimilarity", .num embeddingSimilarity)],
       true)

/- ═══════════════ searchKalshiMarkets: silent mock fallback ═══════════════
`src/tools/market-apis.ts`, lines 121–175 and 447–510. -/

/-- A Kalshi market as the search tool returns it (`KalshiMarket` in
`src/types.ts`, the fields the mock markets populate). -/
structure KalshiMarketM where
  ticker : String
  title : String
  category : String
  status : String
  yesPrice : ℚ
  noPrice : ℚ
  volume : ℚ
  liquidity : ℚ
  expirationTime : String
deriving Repr

/-- The hard-coded sample markets of `getMockKalshiMarkets`
(lines 448–493). -/
def mockKalshiMarkets : List KalshiMarketM :=
  [{ ticker := "FED-26JAN-T4.50",
     title := "Will the Fed cut rates in January 2026?",
     category := "Economics", status := "open",
     yesPrice := 72/100, noPrice := 28/100,
     volume := 450000, liquidity := 125000,
     expirationTime := "2026-01-31T23:59:59Z" },
   { ticker := "INFLATION-26Q1-A3",
     title := "Will CPI inflation be above 3% in Q1 2026?",
     category := "Economics", status := "open",
     yesPrice := 45/100, noPrice := 55/100,
     volume := 280000, liquidity := 85000,
     expirationTime := "2026-04-15T23:59:59Z" },
   { ticker := "BTC-26JAN-100K",
     title := "Will Bitcoin be above $100,000 by end of January 2026?",
     category := "Crypto", status := "open",
     yesPrice := 62/100, noPrice := 38/100,
     volume := 890000, liquidity := 230000,
     expirationTime := "2026-01-31T23:59:59Z" },
   { ticker := "RECESSION-26",
     title := "Will there be a US recession in 2026?",
     category := "Economics", status := "open",
     yesPrice := 28/100, noPrice := 72/100,
     volume := 520000, liquidity := 145000,
     expirationTime := "2026-12-31T23:59:59Z" }]

/-- The mock filter (lines 495–500): title, category or ticker contains the
lower-cased query. -/
def mockKalshiFilter (queryLower : String) (m : KalshiMarketM) : Bool :=
  containsLower m.title queryLower || containsLower m.category queryLower ||
  containsLower m.ticker queryLower

/-- What `searchKalshiMarkets.execute` returns (success shape; `note`
omitted as pure presentation). -/
structure KalshiSearchResult where
  success : Bool
  markets : List KalshiMarketM
  query : String
  count : ℕ
  source : String
deriving Repr

/-- `getMockKalshiMarkets(query, limit)` (lines 447–510): always
`success: true`, `source: 'mock'`, with the filtered sample markets. -/
def getMockKalshiMarkets (query : String) (limit : ℕ) : KalshiSearchResult :=
  let filtered := mockKalshiMarkets.filter (mockKalshiFilter (lowerStr query))
  { success := true, markets := filtered.take limit, query := query,
    count := filtered.length, source := "mock" }

/-- The venue discovery API as the tool sees it: either an HTTP 200 body
with a market list, or a failure (`fetch` threw, or `response.ok` was
false — both fall through to the mock path). -/
inductive KalshiApiOutcome where
  | ok (markets : List KalshiMarketM) : KalshiApiOutcome
  | failure : KalshiApiOutcome

/-- The live filter (lines 149–156) on formatted markets: title, category
or ticker contains the lower-cased query (the `subtitle` field is absent
from the model; no claim here touches it). -/
def apiKalshiFilter (queryLower : String) (m : KalshiMarketM) : Bool :=
  containsLower m.title queryLower || containsLower m.category queryLower ||
  containsLower m.ticker queryLower

/-- `searchKalshiMarkets.execute({query, status, limit})` (lines 130–174):
with an API key and an OK response, filter and return the live markets
(`source: 'kalshi-api'`); on any API failure, or with no key, silently
return the mock data instead. -/
def searchKalshiMarkets (hasApiKey : Bool) (api : KalshiApiOutcome)
    (query : String) (limit : ℕ) : KalshiSearchResult :=
  if hasApiKey then
    match api with
    | .ok ms =>
      let filtered := (ms.filter (apiKalshiFilter (lowerStr query))).take limit
      { success := true, markets := filtered, query := query,
        count := filtered.length, source := "kalshi-api" }
    | .failure => getMockKalshiMarkets query limit
  else getMockKalshiMarkets query limit

/-- A matched pair with recommendation `PROCEED_WITH_CAUTION` and a thin
spread: its `arbitrageOpportunity` is `false`, yet the opportunities filter
keeps it. -/
def samplePairCaution : MatchedPairResult :=
  { kalshiTicker := "FED-26JAN-T4.50",
    kalshiQuestion := "Will the Fed cut rates in January 2026?",
    kalshiPrice := some (72/100),
    polymarketId := "fed-rate-jan-2026",
    polymarketQuestion := "Will the Federal Reserve cut interest rates in January 2026?",
    polymarketPrice := some (70/100),
    verification :=
      { isMatch := true, matchConfidence := 8/10, riskLevel := "MEDIUM",
        recommendation := "PROCEED_WITH_CAUTION" },
    priceSpread := some 2,
    arbitrageOpportunity := false }

/- ═══════════════════════════ Theorems ═══════════════════════════ -/

/-- C1: the spec requires `verifyMarketPair` to validate the parsed judgment
(fields, enums, [0,1] ranges, and `isMatch ⇒ ¬AVOID ∧ risk ∈ {LOW,MEDIUM}`)
and reject violations as `InvalidJudgment`.  The source performs no such
validation: a parsed response with `isMatch = true` and
`recommendation = "AVOID"` is returned as a success carrying the invalid
judgment unchanged.  This theorem evaluates the embedded parse pipeline at
that failing input. -/
theorem C1_invalid_judgment_passes_through :
    verifyMarketPairParse "\x7b\"isMatch\": true, \"recommendation\": \"AVOID\"\x7d" =
      .success (.obj [("isMatch", .bool true), ("recommendation", .str "AVOID")]) ∧
    (Json.obj [("isMatch", .bool true), ("recommendation", .str "AVOID")]).boolField
      "isMatch" = some true ∧
    (Json.obj [("isMatch", .bool true), ("recommendation", .str "AVOID")]).strField
      "recommendation" = some "AVOID" := by
  refine ⟨by rfl, by rfl, by rfl⟩

/-- C2, counterexample: the claim says a supplied `priceSpread` below 3
with at least one misalignment always downgrades to AVOID.  With
`priceSpread = 0` (supplied, below 3) and one misalignment the source's
truthiness test `priceSpread && ...` skips the downgrade: the
recommendation stays `SAFE_TO_TRADE`. -/
theorem C2_zero_spread_not_downgraded :
    adjustedRecommendation sampleJudgmentSafeOneMis (some 0) = .SAFE_TO_TRADE ∧
    ¬ adjustedRecommendation sampleJudgmentSafeOneMis (some 0) = .AVOID := by
  constructor
  · norm_num [adjustedRecommendation, sampleJudgmentSafeOneMis]
  · norm_num [adjustedRecommendation, sampleJudgmentSafeOneMis]
    decide

/-- C2 (amended): the downgrade fires exactly when a `priceSpread` is
supplied, nonzero (JavaScript truthiness: a zero spread skips the check),
below 3, and at least one misalignment is present; in every other case the
collaborator's recommendation is kept, so the adjustment never upgrades.
The two named instances (spread 2 → AVOID, spread 10 → unchanged) hold. -/
theorem C2_spread_downgrade_adjusted :
    (∀ (v : JudgmentForReport) (sp : Option ℚ),
      adjustedRecommendation v sp = v.recommendation ∨
      adjustedRecommendation v sp = .AVOID) ∧
    (∀ (v : JudgmentForReport) (s : ℚ),
      s ≠ 0 → s < 3 → 0 < v.misalignments.length →
      adjustedRecommendation v (some s) = .AVOID) ∧
    (∀ v : JudgmentForReport, adjustedRecommendation v none = v.recommendation) ∧
    (∀ (v : JudgmentForReport) (s : ℚ), 3 ≤ s →
      adjustedRecommendation v (some s) = v.recommendation) ∧
    (∀ (v : JudgmentForReport) (s : ℚ), v.misalignments.length = 0 →
      adjustedRecommendation v (some s) = v.recommendation) ∧
    (∀ v : JudgmentForReport, adjustedRecommendation v (some 0) = v.recommendation) ∧
    adjustedRecommendation sampleJudgmentSafeOneMis (some 2) = .AVOID ∧
    adjustedRecommendation sampleJudgmentSafeOneMis (some 10) = .SAFE_TO_TRADE := by
  refine ⟨?_, ?_, ?_, ?_, ?_, ?_, ?_, ?_⟩
  · intro v sp
    cases sp with
    | none => exact Or.inl rfl
    | some s =>
      by_cases h : s ≠ 0 ∧ s < 3 ∧ 0 < v.misalignments.length
      · exact Or.inr (by simp [adjustedRecommendation, h])
      · exact Or.inl (by simp [adjustedRecommendation, h])
  · intro v s h0 h3 hm
    simp [adjustedRecommendation, h0, h3, hm]
  · intro v; rfl
  · intro v s h3
    have : ¬ s < 3 := not_lt.mpr h3
    simp [adjustedRecommendation, this]
  · intro v s hm
    simp [adjustedRecommendation, hm]
  · intro v
    simp [adjustedRecommendation]
  · norm_num [adjustedRecommendation, sampleJudgmentSafeOneMis]
  · norm_num [adjustedRecommendation, sampleJudgmentSafeOneMis]

/-- C5: `runVerificationAgent` derives `arbitrageOpportunity` as
`recommendation === 'SAFE_TO_TRADE' && priceSpread > 3` (strict), with
`priceSpread` the stored derived spread. -/
theorem C5_arbitrage_opportunity_iff
    (kalshiTicker kalshiQuestion : String) (kalshiYesPrice : Option ℚ)
    (polymarketId polymarketQuestion : String) (polymarketFirstPrice : Option ℚ)
    (verification : PairVerification) :
    (mkMatchedPair kalshiTicker kalshiQuestion kalshiYesPrice polymarketId
        polymarketQuestion polymarketFirstPrice verification).priceSpread =
      some (agentPriceSpread kalshiYesPrice polymarketFirstPrice) ∧
    ((mkMatchedPair kalshiTicker kalshiQuestion kalshiYesPrice polymarketId
        polymarketQuestion polymarketFirstPrice verification).arbitrageOpportunity = true ↔
      (mkMatchedPair kalshiTicker kalshiQuestion kalshiYesPrice polymarketId
        polymarketQuestion polymarketFirstPrice verification).verification.recommendation =
        "SAFE_TO_TRADE" ∧
      3 < agentPriceSpread kalshiYesPrice polymarketFirstPrice) := by
  constructor
  · rfl
  · simp [mkMatchedPair, Bool.and_eq_true, decide_eq_true_eq]

/-- C6: the claim (and the spec's §9 redesign note) requires a discovery
API failure to surface as a typed `DiscoveryPartialFailure` treated as zero
results.  The source instead falls through to `getMockKalshiMarkets`: with
an API key configured and the venue API failing, the query "Fed" returns
`success: true`, `source: 'mock'`, and one hard-coded sample market —
never a typed failure. -/
theorem C6_discovery_failure_mock_fallback :
    (searchKalshiMarkets true .failure "Fed" 20).success = true ∧
    (searchKalshiMarkets true .failure "Fed" 20).source = "mock" ∧
    (searchKalshiMarkets true .failure "Fed" 20).markets.map KalshiMarketM.ticker =
      ["FED-26JAN-T4.50"] ∧
    searchKalshiMarkets true .failure "Fed" 20 = getMockKalshiMarkets "Fed" 20 := by
  refine ⟨by rfl, by rfl, by rfl, by rfl⟩

/-- C9: the spec requires singleflight de-duplication: two concurrent
callers asking for the same uncached `marketId` must issue exactly one
compute call.  `getEmbedding` has no in-flight map, so in the interleaving
where both callers pass the cache check before either stores
(A checks, B checks, A resumes, B resumes) two collaborator calls are
issued. -/
theorem C9_concurrent_double_compute :
    (runSchedule "X" "q" "q" .KALSHI (fun t => ⟨[1], "text-embedding-3-small", t⟩)
      [false, true, false, true] (emptyCache, .start, .start, 0)).2.2.2 = 2 ∧
    ¬ (runSchedule "X" "q" "q" .KALSHI (fun t => ⟨[1], "text-embedding-3-small", t⟩)
      [false, true, false, true] (emptyCache, .start, .start, 0)).2.2.2 = 1 ∧
    (runSchedule "X" "q" "q" .KALSHI (fun t => ⟨[1], "text-embedding-3-small", t⟩)
      [false, true, false, true] (emptyCache, .start, .start, 0)).2.1 =
      .done ⟨[1], "text-embedding-3-small", "q"⟩ ∧
    (runSchedule "X" "q" "q" .KALSHI (fun t => ⟨[1], "text-embedding-3-small", t⟩)
      [false, true, false, true] (emptyCache, .start, .start, 0)).2.2.1 =
      .done ⟨[1], "text-embedding-3-small", "q"⟩ := by
  refine ⟨by rfl, by decide, by rfl, by rfl⟩

/-- C3, counterexample: the claim says the short-circuit result carries
`isMatch = false`.  The source's `embedding_only` object has no `isMatch`
key at all (reading it in JavaScript gives `undefined`, not the boolean
`false`): at similarity 0.3 against the default threshold 0.65 the lookup
is `none`, not `some false`. -/
theorem C3_short_circuit_no_isMatch_field :
    (smartVerifyPair (3/10) (13/20) false "").1.lookup "isMatch" = none ∧
    ¬ (smartVerifyPair (3/10) (13/20) false "").1.lookup "isMatch" =
        some (Json.bool false) := by
  have h : (smartVerifyPair (3/10) (13/20) false "").1.lookup "isMatch" = none := by
    norm_num [smartVerifyPair, smartVerifyShortCircuit, Json.lookup, lookupField]
    simp
  exact ⟨h, by rw [h]; simp⟩

/-- C3 (amended): whenever the computed embedding similarity is below the
threshold or the skip flag is set, `smartVerifyPair` makes no
judgment-collaborator call and returns the degenerate heuristic-only
result immediately, with no `isMatch` field (`undefined`, not `false`),
`shouldTrade = false`, and the two-band recommendation (`UNLIKELY_MATCH`
below 0.5, `POSSIBLE_MATCH` otherwise). -/
theorem C3_short_circuit_adjusted (sim thr : ℚ) (skipLLM : Bool) (llmText : String)
    (h : sim < thr ∨ skipLLM = true) :
    (smartVerifyPair sim thr skipLLM llmText).2 = false ∧
    (smartVerifyPair sim thr skipLLM llmText).1.lookup "isMatch" = none ∧
    (smartVerifyPair sim thr skipLLM llmText).1.lookup "shouldTrade" =
      some (.bool false) ∧
    (smartVerifyPair sim thr skipLLM llmText).1.lookup "recommendation" =
      some (.str (if sim < 1/2 then "UNLIKELY_MATCH" else "POSSIBLE_MATCH")) := by
  have hcond : sim < thr ∨ (skipLLM = true) := h
  refine ⟨?_, ?_, ?_, ?_⟩ <;>
    simp [smartVerifyPair, if_pos hcond, smartVerifyShortCircuit, Json.lookup,
      lookupField]

/-- C3, witness: the amended theorem applied at similarity 0.3, threshold
0.65, skip flag off. -/
theorem C3_short_circuit_adjusted_witness :
    (smartVerifyPair (3/10) (13/20) false "").2 = false ∧
    (smartVerifyPair (3/10) (13/20) false "").1.lookup "shouldTrade" =
      some (.bool false) :=
  ⟨(C3_short_circuit_adjusted (3/10) (13/20) false "" (Or.inl (by norm_num))).1,
   (C3_short_circuit_adjusted (3/10) (13/20) false "" (Or.inl (by norm_num))).2.2.1⟩

/-- C4, counterexample: the claim says the extraction takes the *first
balanced* `{...}` object, so any valid object followed by arbitrary extra
text parses.  The source regex `\{[\s\S]*\}` is greedy — first `{` to
*last* `}` — so the object `{"a":true}` followed by the extra text ` x}`
extracts as the whole span `{"a":true} x}`, `JSON.parse` throws, and the
call fails instead of succeeding. -/
theorem C4_trailing_brace_fails :
    jsonParse "\x7b\"a\":true\x7d" = some (.obj [("a", .bool true)]) ∧
    verifyMarketPairParse ("\x7b\"a\":true\x7d" ++ " x\x7d") = .parseError ∧
    extractJsonSpan ("\x7b\"a\":true\x7d" ++ " x\x7d") = some "\x7b\"a\":true\x7d x\x7d" := by
  refine ⟨by rfl, by rfl, by rfl⟩

/-- C4 (amended): `verifyMarketPair` extracts the span from the first `{`
to the last `}` of the response (greedy regex, not first-balanced), and a
response consisting of one valid JSON object followed by extra text
succeeds exactly when the extra text contains no `}` (the greedy span then
ends at the object's own closing brace). -/
theorem C4_greedy_span_parse (obj extra : String) (v : Json)
    (hhead : obj.data.head? = some '{')
    (hlast : obj.data.getLast? = some '}')
    (hparse : jsonParse obj = some v)
    (hextra : ∀ c ∈ extra.data, ¬ c = '}') :
    extractJsonSpan (obj ++ extra) = some obj ∧
    verifyMarketPairParse (obj ++ extra) = .success v := by
  obtain ⟨tl, htl⟩ : ∃ tl, obj.data = '{' :: tl := by
    cases hd : obj.data with
    | nil => rw [hd] at hhead; simp at hhead
    | cons a t =>
      rw [hd] at hhead
      simp only [List.head?_cons, Option.some.injEq] at hhead
      exact ⟨t, by rw [hhead]⟩
  obtain ⟨rt, hrt⟩ : ∃ rt, obj.data.reverse = '}' :: rt := by
    have h1 : obj.data.reverse.head? = some '}' := by
      rw [List.head?_reverse]; exact hlast
    cases hr : obj.data.reverse with
    | nil => rw [hr] at h1; simp at h1
    | cons a t =>
      rw [hr] at h1
      simp only [List.head?_cons, Option.some.injEq] at h1
      exact ⟨t, by rw [h1]⟩
  have hdata : (obj ++ extra).data = obj.data ++ extra.data := String.data_append obj extra
  have hcore : (obj.data ++ extra.data).dropWhile (fun c => !(c == '{')) =
      obj.data ++ extra.data := by
    rw [htl, List.cons_append, List.dropWhile_cons]
    simp
  have hrev : (obj.data ++ extra.data).reverse =
      extra.data.reverse ++ obj.data.reverse := List.reverse_append _ _
  have hdropExtra : extra.data.reverse.dropWhile (fun c => !(c == '}')) = [] := by
    rw [List.dropWhile_eq_nil_iff]
    intro c hc
    have := hextra c (List.mem_reverse.mp hc)
    simpa using this
  have hdropA : (extra.data.reverse ++ obj.data.reverse).dropWhile
      (fun c => !(c == '}')) = obj.data.reverse.dropWhile (fun c => !(c == '}')) := by
    rw [List.dropWhile_append, hdropExtra]
    simp
  have hdropB : obj.data.reverse.dropWhile (fun c => !(c == '}')) =
      obj.data.reverse := by
    rw [hrt, List.dropWhile_cons]
    simp
  have hextract : extractJsonSpan (obj ++ extra) = some obj := by
    simp only [extractJsonSpan, hdata, hcore, hrev, hdropA, hdropB]
    rw [hrt]
    simp only [List.isEmpty_cons, if_neg Bool.false_ne_true]
    rw [← hrt, List.reverse_reverse]
  refine ⟨hextract, ?_⟩
  simp [verifyMarketPairParse, hextract, hparse]

/-- C4, witness: the amended theorem at a concrete object followed by
brace-free trailing text. -/
theorem C4_greedy_span_parse_witness :
    extractJsonSpan ("\x7b\"isMatch\":true\x7d" ++ " plus trailing text") =
      some "\x7b\"isMatch\":true\x7d" ∧
    verifyMarketPairParse ("\x7b\"isMatch\":true\x7d" ++ " plus trailing text") =
      .success (.obj [("isMatch", .bool true)]) :=
  C4_greedy_span_parse "\x7b\"isMatch\":true\x7d" " plus trailing text"
    (.obj [("isMatch", .bool true)]) (by rfl) (by rfl) (by rfl) (by decide)

/-- C7: after a first `getEmbedding` call stores the vector for an id, a
second call for the same id — with any text, equal or different — returns
the identical stored metadata without invoking the embedding collaborator,
incrementing `hits` by exactly 1; `misses` and `generated` are incremented
by exactly 1 by the first call only. -/
theorem C7_cache_idempotence (st : CacheState) (id t1 t2 : String) (venue : Venue)
    (compute : String → EmbeddingMetadata)
    (hmiss : findEntry st.entries id = none) :
    ((getEmbedding st id t1 venue compute).2.2 = true ∧
     (getEmbedding st id t1 venue compute).2.1.misses = st.misses + 1 ∧
     (getEmbedding st id t1 venue compute).2.1.generated = st.generated + 1 ∧
     (getEmbedding st id t1 venue compute).2.1.hits = st.hits) ∧
    ((getEmbedding (getEmbedding st id t1 venue compute).2.1 id t2 venue compute).1 =
       (getEmbedding st id t1 venue compute).1 ∧
     (getEmbedding (getEmbedding st id t1 venue compute).2.1 id t2 venue compute).2.2 =
       false ∧
     (getEmbedding (getEmbedding st id t1 venue compute).2.1 id t2 venue compute).2.1.hits =
       (getEmbedding st id t1 venue compute).2.1.hits + 1 ∧
     (getEmbedding (getEmbedding st id t1 venue compute).2.1 id t2 venue compute).2.1.misses =
       (getEmbedding st id t1 venue compute).2.1.misses ∧
     (getEmbedding (getEmbedding st id t1 venue compute).2.1 id t2 venue compute).2.1.generated =
       (getEmbedding st id t1 venue compute).2.1.generated) := by
  simp [getEmbedding, hmiss, setEntry, findEntry]

/-- C7, witness: the theorem at an empty cache, id `"X"`, first text
`"alpha"`, second (different) text `"beta"`. -/
theorem C7_cache_idempotence_witness :
    ((getEmbedding emptyCache "X" "alpha" .KALSHI
        (fun t => ⟨[1], "text-embedding-3-small", t⟩)).2.2 = true ∧
     (getEmbedding emptyCache "X" "alpha" .KALSHI
        (fun t => ⟨[1], "text-embedding-3-small", t⟩)).2.1.misses = emptyCache.misses + 1 ∧
     (getEmbedding emptyCache "X" "alpha" .KALSHI
        (fun t => ⟨[1], "text-embedding-3-small", t⟩)).2.1.generated =
       emptyCache.generated + 1 ∧
     (getEmbedding emptyCache "X" "alpha" .KALSHI
        (fun t => ⟨[1], "text-embedding-3-small", t⟩)).2.1.hits = emptyCache.hits) ∧
    ((getEmbedding (getEmbedding emptyCache "X" "alpha" .KALSHI
        (fun t => ⟨[1], "text-embedding-3-small", t⟩)).2.1 "X" "beta" .KALSHI
        (fun t => ⟨[1], "text-embedding-3-small", t⟩)).1 =
       (getEmbedding emptyCache "X" "alpha" .KALSHI
        (fun t => ⟨[1], "text-embedding-3-small", t⟩)).1 ∧
     (getEmbedding (getEmbedding emptyCache "X" "alpha" .KALSHI
        (fun t => ⟨[1], "text-embedding-3-small", t⟩)).2.1 "X" "beta" .KALSHI
        (fun t => ⟨[1], "text-embedding-3-small", t⟩)).2.2 = false ∧
     (getEmbedding (getEmbedding emptyCache "X" "alpha" .KALSHI
        (fun t => ⟨[1], "text-embedding-3-small", t⟩)).2.1 "X" "beta" .KALSHI
        (fun t => ⟨[1], "text-embedding-3-small", t⟩)).2.1.hits =
       (getEmbedding emptyCache "X" "alpha" .KALSHI
        (fun t => ⟨[1], "text-embedding-3-small", t⟩)).2.1.hits + 1 ∧
     (getEmbedding (getEmbedding emptyCache "X" "alpha" .KALSHI
        (fun t => ⟨[1], "text-embedding-3-small", t⟩)).2.1 "X" "beta" .KALSHI
        (fun t => ⟨[1], "text-embedding-3-small", t⟩)).2.1.misses =
       (getEmbedding emptyCache "X" "alpha" .KALSHI
        (fun t => ⟨[1], "text-embedding-3-small", t⟩)).2.1.misses ∧
     (getEmbedding (getEmbedding emptyCache "X" "alpha" .KALSHI
        (fun t => ⟨[1], "text-embedding-3-small", t⟩)).2.1 "X" "beta" .KALSHI
        (fun t => ⟨[1], "text-embedding-3-small", t⟩)).2.1.generated =
       (getEmbedding emptyCache "X" "alpha" .KALSHI
        (fun t => ⟨[1], "text-embedding-3-small", t⟩)).2.1.generated) :=
  C7_cache_idempotence emptyCache "X" "alpha" "beta" .KALSHI
    (fun t => ⟨[1], "text-embedding-3-small", t⟩) rfl

/-- C8: `quickSimilarityScore` is bounded by `[0,1]` for all strings, is
`0` whenever the union of the two token sets is empty, and is `1` on
`(s, s)` whenever `s` has at least one token of length `> 2` after
normalization. -/
theorem C8_token_similarity_bounds (s t : String) :
    0 ≤ quickSimilarityScore s t ∧ quickSimilarityScore s t ≤ 1 ∧
    (wordSet s ∪ wordSet t = ∅ → quickSimilarityScore s t = 0) ∧
    ((wordSet s).Nonempty → quickSimilarityScore s s = 1) := by
  refine ⟨?_, ?_, ?_, ?_⟩
  · simp only [quickSimilarityScore]
    split
    · positivity
    · exact le_refl 0
  · simp only [quickSimilarityScore]
    split
    · next h =>
      have hpos : (0 : ℚ) < ((wordSet s ∪ wordSet t).card : ℚ) := by exact_mod_cast h
      rw [div_le_one hpos]
      exact_mod_cast Finset.card_le_card Finset.inter_subset_union
    · exact zero_le_one
  · intro h
    simp only [quickSimilarityScore]
    simp [h]
  · intro h
    have hpos : 0 < (wordSet s).card := Finset.card_pos.mpr h
    simp only [quickSimilarityScore, Finset.inter_self, Finset.union_self,
      if_pos hpos]
    exact div_self (by exact_mod_cast hpos.ne')

/-- C10: `getVerifiedArbitrageOpportunities` keeps exactly the matched
pairs whose recommendation is SAFE_TO_TRADE or PROCEED_WITH_CAUTION,
sorted by descending spread; membership does not require
`arbitrageOpportunity`, so a PROCEED_WITH_CAUTION pair with spread ≤ 3
(and `arbitrageOpportunity = false`) appears. -/
theorem C10_opportunities_filter_sort :
    (∀ pairs : List MatchedPairResult,
      (getVerifiedOpportunities pairs).Perm
        ((pairs.filter keepOpportunity).map toOpportunity) ∧
      (getVerifiedOpportunities pairs).Pairwise (fun a b => b.spread ≤ a.spread) ∧
      (∀ o, o ∈ getVerifiedOpportunities pairs ↔
        ∃ p, p ∈ pairs ∧ keepOpportunity p = true ∧ o = toOpportunity p)) ∧
    (toOpportunity samplePairCaution ∈ getVerifiedOpportunities [samplePairCaution] ∧
     (toOpportunity samplePairCaution).recommendation = "PROCEED_WITH_CAUTION" ∧
     (toOpportunity samplePairCaution).spread ≤ 3 ∧
     samplePairCaution.arbitrageOpportunity = false) := by
  have hmain : ∀ pairs : List MatchedPairResult,
      (getVerifiedOpportunities pairs).Perm
        ((pairs.filter keepOpportunity).map toOpportunity) ∧
      (getVerifiedOpportunities pairs).Pairwise (fun a b => b.spread ≤ a.spread) ∧
      (∀ o, o ∈ getVerifiedOpportunities pairs ↔
        ∃ p, p ∈ pairs ∧ keepOpportunity p = true ∧ o = toOpportunity p) := by
    intro pairs
    have hperm : (getVerifiedOpportunities pairs).Perm
        ((pairs.filter keepOpportunity).map toOpportunity) :=
      List.mergeSort_perm _ _
    refine ⟨hperm, ?_, ?_⟩
    · have hsorted := @List.sorted_mergeSort ArbitrageOpp
        (fun a b : ArbitrageOpp => decide (b.spread ≤ a.spread))
        (fun a b c hab hbc => by
          simp only [decide_eq_true_eq] at *
          exact le_trans hbc hab)
        (fun a b => by
          simp only [Bool.or_eq_true, decide_eq_true_eq]
          exact le_total b.spread a.spread)
        ((pairs.filter keepOpportunity).map toOpportunity)
      exact hsorted.imp (fun h => by simpa using h)
    · intro o
      rw [hperm.mem_iff, List.mem_map]
      constructor
      · rintro ⟨p, hp, rfl⟩
        rw [List.mem_filter] at hp
        exact ⟨p, hp.1, hp.2, rfl⟩
      · rintro ⟨p, hp, hkeep, rfl⟩
        exact ⟨p, List.mem_filter.mpr ⟨hp, hkeep⟩, rfl⟩
  refine ⟨hmain, ?_, by rfl, ?_, by rfl⟩
  · exact ((hmain [samplePairCaution]).2.2 _).mpr
      ⟨samplePairCaution, by simp, by rfl, rfl⟩
  · norm_num [toOpportunity, jsOr, samplePairCaution]

end SemVer
